import Mathlib

/-!
Shallow embedding of the command-to-signal dispatch logic of the sample
vehicle app (src/app/src/main.py).

The app receives voice-control commands over an MQTT topic and free-form
JSON command frames over a Bluetooth serial link (drained from a queue),
translates them into vehicle-signal writes, and publishes responses.

Modelling conventions:
- A JSON value delivered in a command frame is a `JValue` (integer, boolean
  or string); a decoded JSON object is a `Frame`, an association list from
  keys to values.  `json.loads` on a raw inbound message is abstracted by
  `BtMsg`: either a successfully decoded `Frame` or a `malformed` payload on
  which decoding raises.
- Python dynamic-typing details are modelled explicitly: `pyTruthy` is
  Python truthiness, `pyEqJint` is Python `==` between a decoded value and
  an int literal (`True == 1` and `False == 0` hold in Python), `pyIntE` is
  Python `int(...)` coercion (failing on non-numeric strings).
- The observable behaviour of a handler is a trace of `Event`s: awaited
  signal writes, `asyncio.sleep` delays, and MQTT publishes.  A signal-set
  call that the source does not `await` (line 167) produces no write event.
- Exception semantics of the queue handler `on_got_msg` (a `try/except`
  around each command-category block) are modelled by the writer/exception
  monad `PyM`: events emitted before an exception are kept, `tryPass`
  swallows the exception as the source's bare `except: pass` does.
-/

/-- A decoded JSON scalar value as it appears in the app's command frames. -/
inductive JValue : Type
  | num (n : Int)
  | bool (b : Bool)
  | str (s : String)
deriving DecidableEq

/-- A decoded JSON object: association list from field names to values. -/
def Frame : Type := List (String × JValue)

instance : DecidableEq Frame := by
  unfold Frame
  infer_instance

/-- Result of `json.loads` on a raw inbound message: decoding either yields a
frame or raises (`malformed`). -/
inductive BtMsg : Type
  | malformed
  | payload (d : Frame)

/-- The vehicle-signal paths written by the app. -/
inductive Signal : Type
  | CabinSeatRow1Pos1Position
  | BodyMirrorsLeftPan
  | BodyMirrorsLeftTilt
  | CabinHVACStationRow1LeftFanSpeed
  | CabinSeatRow1Pos1BackrestLumbarSupport
deriving DecidableEq

/-- Shape of an outbound MQTT payload built by `json.dumps` in the source:
either a result object with a status and a message, a bt command echo, or a
speed report. -/
inductive MqttPayload : Type
  | result (status : Int) (message : String)
  | btCmd (d : Frame)
  | speed (v : Int)
deriving DecidableEq

/-- One MQTT publish: topic together with its payload. -/
structure Publish : Type where
  topic : String
  payload : MqttPayload
deriving DecidableEq

/-- One observable step of a handler: an awaited signal write, an
`asyncio.sleep`, or an MQTT publish. -/
inductive Event : Type
  | write (s : Signal) (value : Int)
  | sleep (seconds : Int)
  | publish (p : Publish)
deriving DecidableEq

-- Topic constants (src/app/src/main.py lines 39-43).
def GET_SPEED_REQUEST_TOPIC : String := "sampleapp/getSpeed"
def GET_SPEED_RESPONSE_TOPIC : String := "sampleapp/getSpeed/response"
def DATABROKER_SUBSCRIPTION_TOPIC : String := "sampleapp/currentSpeed"
def VOICE_CONTROL_REQUEST_TOPIC : String := "tw_mcu/sdvos_voice_ctrl"
def VOICE_CONTROL_RESPONSE_TOPICE : String := "tw_mcu/sdvos_voice_ctrl/response"

-- Voice command codes (lines 46-56).  Note that the codes for the two
-- lumbar inflation variants are both 8 in the source.
def SDVOS_SEAT_MOVE_FORWARD : Int := 0
def SDVOS_SEAT_MOVE_BACKWARD : Int := 1
def SDVOS_FAN_START : Int := 2
def SDVOS_FAN_STOP : Int := 3
def SDVOS_MIRRORREAR_PAN_LEFT : Int := 4
def SDVOS_MIRRORREAR_PAN_RIGHT : Int := 5
def SDVOS_MIRRORREAR_TITL_UP : Int := 6
def SDVOS_MIRRORREAR_TITL_DOWN : Int := 7
def SDVOS_LUMBAR_SUPPORT_01_INFLATION : Int := 8
def SDVOS_LUMBAR_SUPPORT_02_INFLATION : Int := 8
def SDVOS_LUMBAR_SUPPORT_DEFLATION : Int := 9

-- Seat position constants (lines 59-66).
def VSS_SEAT_POSITION_BASE : Int := 50
def VSS_SEAT_POSITION_MAX : Int := 60
def VSS_SEAT_POSITION_MIN : Int := 40
def VSS_SEAT_POSITION_MOVE_STEP : Int := 10
def VSS_SEAT_BACKWARD : Int := 240
def VSS_SEAT_FORWARD : Int := 241
def VSS_SEAT_MOVE_STOP : Int := 242

-- Fan constants (lines 69-70).
def VSS_FAN_START : Int := 45
def VSS_FAN_STOP : Int := 0

-- Mirror constants (lines 73-77).
def VSS_MIRROR_PAN_LEFT : Int := 120
def VSS_MIRROR_PAN_RIGHT : Int := 121
def VSS_MIRROR_TILT_UP : Int := 122
def VSS_MIRROR_TILT_DOWN : Int := 123
def VSS_MIRROR_MOVE_STOP : Int := 118

-- Air cell constants (lines 80-83).
def VSS_LUMBAR_AIRCELL0 : Int := 124
def VSS_LUMBAR_AIRCELL1 : Int := 125
def VSS_LUMBAR_AIRCELL_STOP : Int := 126
def VSS_LUMBAR_AIRCELL_DEFLATION : Int := 127

/-- Python truthiness of a decoded JSON value (`if app_dit['status']:`). -/
def pyTruthy : JValue → Bool
  | .num n => n != 0
  | .bool b => b
  | .str s => s != ""

/-- Python `==` between a decoded JSON value and an int literal.  In Python
`True == 1` and `False == 0`; a string never equals an int. -/
def pyEqJint : JValue → Int → Bool
  | .num m, n => m == n
  | .bool b, n => (if b then (1 : Int) else 0) == n
  | .str _, _ => false

/-- Python `==` between an int literal and an optional dict value, as in
`SDVOS_SEAT_MOVE_FORWARD == voice_cmd` where `voice_cmd` comes from
`voice_data.get('voice_cmd')` (`None` compares unequal to every int). -/
def pyEqInt (n : Int) : Option JValue → Bool
  | some v => pyEqJint v n
  | none => false

/-- Python `int(...)` coercion of a decoded JSON value: identity on ints,
`True ↦ 1` / `False ↦ 0` on booleans, decimal parse on strings (raising,
i.e. `none`, when the string is not an integer literal). -/
def pyIntE : JValue → Option Int
  | .num n => some n
  | .bool b => some (if b then 1 else 0)
  | .str s => s.toInt?

/-- The publish performed by `send_mqtt_response` (lines 314-325): a result
object with status 1 and the given message, on the voice response topic. -/
def send_mqtt_response (msg : String) : Event :=
  .publish ⟨VOICE_CONTROL_RESPONSE_TOPICE, .result 1 msg⟩

/-- The body of `on_voice_control_request_received` (lines 339-406) after
`json.loads`: given the decoded `voice_cmd` field and the current value of
the global `seat_position_current`, the trace of events of the eleven
independent `if` blocks (executed top to bottom) and the new tracker value.
Python adjacent string literals concatenate without a space, hence the
rejection messages. -/
def voiceDispatch (voice_cmd : Option JValue) (seat_position_current : Int) :
    List Event × Int :=
  let fb :=
    if pyEqInt SDVOS_SEAT_MOVE_FORWARD voice_cmd then
      let positon := seat_position_current + VSS_SEAT_POSITION_MOVE_STEP
      if seat_position_current ≥ VSS_SEAT_POSITION_MAX then
        ([send_mqtt_response "The Seat Position willbe bigger than max value(60)."],
          seat_position_current)
      else
        ([Event.write .CabinSeatRow1Pos1Position positon], positon)
    else ([], seat_position_current)
  let bb :=
    if pyEqInt SDVOS_SEAT_MOVE_BACKWARD voice_cmd then
      let positon := fb.2 - VSS_SEAT_POSITION_MOVE_STEP
      if fb.2 ≤ VSS_SEAT_POSITION_MIN then
        ([send_mqtt_response "The Seat Position willbe litter than min value(40)."],
          fb.2)
      else
        ([Event.write .CabinSeatRow1Pos1Position positon], positon)
    else ([], fb.2)
  let e3 :=
    if pyEqInt SDVOS_FAN_START voice_cmd then
      [Event.write .CabinHVACStationRow1LeftFanSpeed VSS_FAN_START]
    else []
  let e4 :=
    if pyEqInt SDVOS_FAN_STOP voice_cmd then
      [Event.write .CabinHVACStationRow1LeftFanSpeed VSS_FAN_STOP]
    else []
  let e5 :=
    if pyEqInt SDVOS_MIRRORREAR_PAN_LEFT voice_cmd then
      [Event.write .BodyMirrorsLeftPan VSS_MIRROR_PAN_LEFT, Event.sleep 2,
        Event.write .BodyMirrorsLeftPan VSS_MIRROR_MOVE_STOP]
    else []
  let e6 :=
    if pyEqInt SDVOS_MIRRORREAR_PAN_RIGHT voice_cmd then
      [Event.write .BodyMirrorsLeftPan VSS_MIRROR_PAN_RIGHT, Event.sleep 2,
        Event.write .BodyMirrorsLeftPan VSS_MIRROR_MOVE_STOP]
    else []
  let e7 :=
    if pyEqInt SDVOS_MIRRORREAR_TITL_UP voice_cmd then
      [Event.write .BodyMirrorsLeftTilt VSS_MIRROR_TILT_UP, Event.sleep 2,
        Event.write .BodyMirrorsLeftTilt VSS_MIRROR_MOVE_STOP]
    else []
  let e8 :=
    if pyEqInt SDVOS_MIRRORREAR_TITL_DOWN voice_cmd then
      [Event.write .BodyMirrorsLeftTilt VSS_MIRROR_TILT_DOWN, Event.sleep 2,
        Event.write .BodyMirrorsLeftTilt VSS_MIRROR_MOVE_STOP]
    else []
  let e9 :=
    if pyEqInt SDVOS_LUMBAR_SUPPORT_01_INFLATION voice_cmd then
      [Event.write .CabinSeatRow1Pos1BackrestLumbarSupport VSS_LUMBAR_AIRCELL0,
        Event.sleep 2,
        Event.write .CabinSeatRow1Pos1BackrestLumbarSupport VSS_LUMBAR_AIRCELL_STOP]
    else []
  let e10 :=
    if pyEqInt SDVOS_LUMBAR_SUPPORT_02_INFLATION voice_cmd then
      [Event.write .CabinSeatRow1Pos1BackrestLumbarSupport VSS_LUMBAR_AIRCELL1,
        Event.sleep 2,
        Event.write .CabinSeatRow1Pos1BackrestLumbarSupport VSS_LUMBAR_AIRCELL_STOP]
    else []
  let e11 :=
    if pyEqInt SDVOS_LUMBAR_SUPPORT_DEFLATION voice_cmd then
      [Event.write .CabinSeatRow1Pos1BackrestLumbarSupport VSS_LUMBAR_AIRCELL_DEFLATION,
        Event.sleep 2,
        Event.write .CabinSeatRow1Pos1BackrestLumbarSupport VSS_LUMBAR_AIRCELL_STOP]
    else []
  (fb.1 ++ bb.1 ++ e3 ++ e4 ++ e5 ++ e6 ++ e7 ++ e8 ++ e9 ++ e10 ++ e11, bb.2)

/-- The handler `on_voice_control_request_received` (lines 327-406).  The
`json.loads(data)` call on line 335 is not inside a `try`, so a malformed
payload raises out of the handler: this is modelled by `Except.error ()`. -/
def on_voice_control_request_received (data : BtMsg) (seat_position_current : Int) :
    Except Unit (List Event × Int) :=
  match data with
  | .malformed => .error ()
  | .payload voice_data =>
      .ok (voiceDispatch (voice_data.lookup "voice_cmd") seat_position_current)

/-- Sequential processing of a list of voice commands, threading the global
`seat_position_current` tracker, starting from a given value. -/
def runVoice (cmds : List (Option JValue)) (pos : Int) : Int :=
  cmds.foldl (fun p c => (voiceDispatch c p).2) pos


/-- Writer/exception monad for the bt-command handler `on_got_msg`:
a computation records the events it has performed so far and either
returns a value or has raised a Python exception (`Except.error`).
Events performed before an exception are kept. -/
structure PyM (α : Type) : Type where
  events : List Event
  result : Except Unit α

def PyM.bind {α β : Type} (m : PyM α) (f : α → PyM β) : PyM β :=
  match m.result with
  | .error e => ⟨m.events, .error e⟩
  | .ok a =>
      let n := f a
      ⟨m.events ++ n.events, n.result⟩

instance : Monad PyM where
  pure a := ⟨[], .ok a⟩
  bind := PyM.bind

/-- Perform one observable event. -/
def emit (e : Event) : PyM Unit := ⟨[e], .ok ()⟩

/-- Raise a Python exception. -/
def pyRaise {α : Type} : PyM α := ⟨[], .error ()⟩

/-- A `try: body except: pass` wrapper: the body's events are kept, an
exception is swallowed and logged. -/
def tryPass (m : PyM Unit) : PyM Unit := ⟨m.events, .ok ()⟩

/-- Python `d['k']` subscript on a decoded frame: the value when the key is
present, a `KeyError` otherwise. -/
def getItem (d : Frame) (k : String) : PyM JValue :=
  match d.lookup k with
  | some v => pure v
  | none => pyRaise

/-- Python `int(v)` inside the handler: raises on non-numeric strings. -/
def pyIntM (v : JValue) : PyM Int :=
  match pyIntE v with
  | some n => pure n
  | none => pyRaise

/-- Free seat-position control category of `on_got_msg` (lines 149-154):
`t_seat_pos = int(app_dit['seatPos'])`, written through when
`t_seat_pos > 0 and t_seat_pos <= 100`. -/
def seatPosBody (d : Frame) : PyM Unit := do
  let v ← getItem d "seatPos"
  let t_seat_pos ← pyIntM v
  if t_seat_pos > 0 ∧ t_seat_pos ≤ 100 then
    emit (.write .CabinSeatRow1Pos1Position t_seat_pos)
  else pure ()

/-- Seat ECU calibration category of `on_got_msg` (lines 160-176), an
`if/elif` chain on `app_dit['seatCali']` and `app_dit['status']`.  Two
source quirks are modelled faithfully: in the stop-backward branch the
`set(VSS_LUMBAR_AIRCELL1)` call on line 167 is not awaited so no write
occurs for it, and in the forward branch line 171 accesses the non-existent
attribute `Row1.p` after the write, raising an `AttributeError`; the
stop-forward branch reads the non-existent key `'stat-f'` (line 172). -/
def seatCaliBody (d : Frame) : PyM Unit := do
  let cal ← getItem d "seatCali"
  if pyEqJint cal 1 then do
    let st ← getItem d "status"
    if pyTruthy st then
      emit (.write .CabinSeatRow1Pos1Position VSS_SEAT_BACKWARD)
    else
      emit (.write .CabinSeatRow1Pos1Position VSS_SEAT_MOVE_STOP)
  else if pyEqJint cal 0 then do
    let st ← getItem d "status"
    if pyTruthy st then do
      emit (.write .CabinSeatRow1Pos1Position VSS_SEAT_FORWARD)
      pyRaise
    else do
      let sf ← getItem d "stat-f"
      if pyTruthy sf then pure ()
      else emit (.write .CabinSeatRow1Pos1Position VSS_SEAT_MOVE_STOP)
  else pure ()

/-- Mirror ECU calibration category of `on_got_msg` (lines 182-208), an
`if/elif` chain on `app_dit['mirrorCali']` and `app_dit['status']`. -/
def mirrorCaliBody (d : Frame) : PyM Unit := do
  let cal ← getItem d "mirrorCali"
  if pyEqJint cal 0 then do
    let st ← getItem d "status"
    if pyTruthy st then emit (.write .BodyMirrorsLeftPan VSS_MIRROR_PAN_LEFT)
    else emit (.write .BodyMirrorsLeftPan VSS_MIRROR_MOVE_STOP)
  else if pyEqJint cal 2 then do
    let st ← getItem d "status"
    if pyTruthy st then emit (.write .BodyMirrorsLeftPan VSS_MIRROR_PAN_RIGHT)
    else emit (.write .BodyMirrorsLeftPan VSS_MIRROR_MOVE_STOP)
  else if pyEqJint cal 1 then do
    let st ← getItem d "status"
    if pyTruthy st then emit (.write .BodyMirrorsLeftTilt VSS_MIRROR_TILT_UP)
    else emit (.write .BodyMirrorsLeftTilt VSS_MIRROR_MOVE_STOP)
  else if pyEqJint cal 3 then do
    let st ← getItem d "status"
    if pyTruthy st then emit (.write .BodyMirrorsLeftTilt VSS_MIRROR_TILT_DOWN)
    else emit (.write .BodyMirrorsLeftTilt VSS_MIRROR_MOVE_STOP)
  else pure ()

/-- Air-cell category of `on_got_msg` (lines 214-226), an `if/elif` chain on
`app_dit['aircell']` with no `else` action. -/
def aircellBody (d : Frame) : PyM Unit := do
  let ac ← getItem d "aircell"
  if pyEqJint ac 0 then
    emit (.write .CabinSeatRow1Pos1BackrestLumbarSupport VSS_LUMBAR_AIRCELL0)
  else if pyEqJint ac 1 then
    emit (.write .CabinSeatRow1Pos1BackrestLumbarSupport VSS_LUMBAR_AIRCELL1)
  else if pyEqJint ac 2 then
    emit (.write .CabinSeatRow1Pos1BackrestLumbarSupport VSS_LUMBAR_AIRCELL_STOP)
  else if pyEqJint ac 3 then
    emit (.write .CabinSeatRow1Pos1BackrestLumbarSupport VSS_LUMBAR_AIRCELL_DEFLATION)
  else pure ()

/-- HVAC fan-speed category of `on_got_msg` (lines 232-237):
`int(app_dit['fan'])` written through when nonnegative, clamped to 0
otherwise. -/
def fanBody (d : Frame) : PyM Unit := do
  let v ← getItem d "fan"
  let n ← pyIntM v
  if n ≥ 0 then emit (.write .CabinHVACStationRow1LeftFanSpeed n)
  else emit (.write .CabinHVACStationRow1LeftFanSpeed 0)

/-- Processing of one successfully decoded frame by `on_got_msg`
(lines 148-242): the five command-category blocks, each inside its own
`try/except: pass`, followed by the unconditional bt-command echo publish on
`sampleapp/bt_cmd/reponse` (line 242). -/
def btDispatch (d : Frame) : PyM Unit := do
  tryPass (seatPosBody d)
  tryPass (seatCaliBody d)
  tryPass (mirrorCaliBody d)
  tryPass (aircellBody d)
  tryPass (fanBody d)
  emit (.publish ⟨"sampleapp/bt_cmd/reponse", .btCmd d⟩)

/-- Processing of one raw queue message by `on_got_msg` (lines 139-242):
`json.loads` is inside a `try` whose handler logs and `continue`s, so a
malformed message produces no events and the loop moves on. -/
def on_got_msg_step (msg : BtMsg) : List Event :=
  match msg with
  | .malformed => []
  | .payload app_dit => (btDispatch app_dit).events

/-- The `on_got_msg` polling loop over the backlog of queued messages, in
FIFO order. -/
def on_got_msg : List BtMsg → List Event
  | [] => []
  | m :: q => on_got_msg_step m ++ on_got_msg q

/-- The handler `on_get_speed_request_received` (lines 282-312): publishes
one result payload with status 0 and the f-string message on the speed
response topic, `vehicle_speed` being the value returned by the
`Vehicle.Speed.get()` call. -/
def on_get_speed_request_received (vehicle_speed : Int) : List Event :=
  [Event.publish ⟨GET_SPEED_RESPONSE_TOPIC,
    .result 0 ("Current Speed = " ++ toString vehicle_speed)⟩]

/-- How many of the eleven independent `if` blocks of
`on_voice_control_request_received` (lines 339-406) have a true guard for a
given decoded `voice_cmd` value: one summand per block, in source order. -/
def voiceFiredCount (voice_cmd : Option JValue) : Nat :=
  (if pyEqInt SDVOS_SEAT_MOVE_FORWARD voice_cmd then 1 else 0) +
  (if pyEqInt SDVOS_SEAT_MOVE_BACKWARD voice_cmd then 1 else 0) +
  (if pyEqInt SDVOS_FAN_START voice_cmd then 1 else 0) +
  (if pyEqInt SDVOS_FAN_STOP voice_cmd then 1 else 0) +
  (if pyEqInt SDVOS_MIRRORREAR_PAN_LEFT voice_cmd then 1 else 0) +
  (if pyEqInt SDVOS_MIRRORREAR_PAN_RIGHT voice_cmd then 1 else 0) +
  (if pyEqInt SDVOS_MIRRORREAR_TITL_UP voice_cmd then 1 else 0) +
  (if pyEqInt SDVOS_MIRRORREAR_TITL_DOWN voice_cmd then 1 else 0) +
  (if pyEqInt SDVOS_LUMBAR_SUPPORT_01_INFLATION voice_cmd then 1 else 0) +
  (if pyEqInt SDVOS_LUMBAR_SUPPORT_02_INFLATION voice_cmd then 1 else 0) +
  (if pyEqInt SDVOS_LUMBAR_SUPPORT_DEFLATION voice_cmd then 1 else 0)


-- Basic event-trace lemmas for the PyM monad.

theorem tryPass_events (m : PyM Unit) : (tryPass m).events = m.events := rfl

theorem bind_pure_events {α β : Type} (a : α) (f : α → PyM β) :
    ((pure a : PyM α) >>= f).events = (f a).events := rfl

theorem bind_raise_events {α β : Type} (f : α → PyM β) :
    ((pyRaise : PyM α) >>= f).events = [] := rfl

theorem bind_emit_events {β : Type} (e : Event) (f : Unit → PyM β) :
    (emit e >>= f).events = e :: (f ()).events := rfl

theorem bind_tryPass_events {β : Type} (m : PyM Unit) (f : Unit → PyM β) :
    (tryPass m >>= f).events = m.events ++ (f ()).events := rfl

/-- Isolated event trace of the free seat-position category (lines 149-157),
translated directly from the source with the `try/except` hand-compiled:
a `KeyError` or `int()` failure yields no events. -/
def seatPosBlock (d : Frame) : List Event :=
  match d.lookup "seatPos" with
  | none => []
  | some v =>
      match pyIntE v with
      | none => []
      | some t_seat_pos =>
          if t_seat_pos > 0 ∧ t_seat_pos ≤ 100 then
            [Event.write .CabinSeatRow1Pos1Position t_seat_pos]
          else []

/-- Isolated event trace of the seat ECU calibration category
(lines 159-179), `try/except` hand-compiled.  In the forward branch the
write precedes the `Row1.p` `AttributeError`, so it is kept; the
stop-forward branch aborts on the missing `'stat-f'` key before writing. -/
def seatCaliBlock (d : Frame) : List Event :=
  match d.lookup "seatCali" with
  | none => []
  | some cal =>
      if pyEqJint cal 1 then
        match d.lookup "status" with
        | none => []
        | some st =>
            if pyTruthy st then
              [Event.write .CabinSeatRow1Pos1Position VSS_SEAT_BACKWARD]
            else
              [Event.write .CabinSeatRow1Pos1Position VSS_SEAT_MOVE_STOP]
      else if pyEqJint cal 0 then
        match d.lookup "status" with
        | none => []
        | some st =>
            if pyTruthy st then
              [Event.write .CabinSeatRow1Pos1Position VSS_SEAT_FORWARD]
            else
              match d.lookup "stat-f" with
              | none => []
              | some sf =>
                  if pyTruthy sf then []
                  else [Event.write .CabinSeatRow1Pos1Position VSS_SEAT_MOVE_STOP]
      else []

/-- Isolated event trace of the mirror ECU calibration category
(lines 181-211), `try/except` hand-compiled. -/
def mirrorCaliBlock (d : Frame) : List Event :=
  match d.lookup "mirrorCali" with
  | none => []
  | some cal =>
      if pyEqJint cal 0 then
        match d.lookup "status" with
        | none => []
        | some st =>
            if pyTruthy st then [Event.write .BodyMirrorsLeftPan VSS_MIRROR_PAN_LEFT]
            else [Event.write .BodyMirrorsLeftPan VSS_MIRROR_MOVE_STOP]
      else if pyEqJint cal 2 then
        match d.lookup "status" with
        | none => []
        | some st =>
            if pyTruthy st then [Event.write .BodyMirrorsLeftPan VSS_MIRROR_PAN_RIGHT]
            else [Event.write .BodyMirrorsLeftPan VSS_MIRROR_MOVE_STOP]
      else if pyEqJint cal 1 then
        match d.lookup "status" with
        | none => []
        | some st =>
            if pyTruthy st then [Event.write .BodyMirrorsLeftTilt VSS_MIRROR_TILT_UP]
            else [Event.write .BodyMirrorsLeftTilt VSS_MIRROR_MOVE_STOP]
      else if pyEqJint cal 3 then
        match d.lookup "status" with
        | none => []
        | some st =>
            if pyTruthy st then [Event.write .BodyMirrorsLeftTilt VSS_MIRROR_TILT_DOWN]
            else [Event.write .BodyMirrorsLeftTilt VSS_MIRROR_MOVE_STOP]
      else []

/-- Isolated event trace of the air-cell category (lines 213-229),
`try/except` hand-compiled. -/
def aircellBlock (d : Frame) : List Event :=
  match d.lookup "aircell" with
  | none => []
  | some ac =>
      if pyEqJint ac 0 then
        [Event.write .CabinSeatRow1Pos1BackrestLumbarSupport VSS_LUMBAR_AIRCELL0]
      else if pyEqJint ac 1 then
        [Event.write .CabinSeatRow1Pos1BackrestLumbarSupport VSS_LUMBAR_AIRCELL1]
      else if pyEqJint ac 2 then
        [Event.write .CabinSeatRow1Pos1BackrestLumbarSupport VSS_LUMBAR_AIRCELL_STOP]
      else if pyEqJint ac 3 then
        [Event.write .CabinSeatRow1Pos1BackrestLumbarSupport VSS_LUMBAR_AIRCELL_DEFLATION]
      else []

/-- Isolated event trace of the HVAC fan-speed category (lines 231-240),
`try/except` hand-compiled. -/
def fanBlock (d : Frame) : List Event :=
  match d.lookup "fan" with
  | none => []
  | some v =>
      match pyIntE v with
      | none => []
      | some n =>
          if n ≥ 0 then [Event.write .CabinHVACStationRow1LeftFanSpeed n]
          else [Event.write .CabinHVACStationRow1LeftFanSpeed 0]


theorem emit_events (e : Event) : (emit e).events = [e] := rfl

theorem pure_events {α : Type} (a : α) : (pure a : PyM α).events = [] := rfl

theorem raise_events {α : Type} : (pyRaise : PyM α).events = [] := rfl

theorem seatPosBody_events (d : Frame) : (seatPosBody d).events = seatPosBlock d := by
  unfold seatPosBody seatPosBlock getItem
  cases d.lookup "seatPos" with
  | none => rfl
  | some v =>
    simp only [bind_pure_events, pyIntM]
    cases pyIntE v with
    | none => rfl
    | some n =>
      simp only [bind_pure_events]
      by_cases h : n > 0 ∧ n ≤ 100 <;> simp [h, emit_events, pure_events]

theorem seatCaliBody_events (d : Frame) : (seatCaliBody d).events = seatCaliBlock d := by
  unfold seatCaliBody seatCaliBlock getItem
  cases d.lookup "seatCali" with
  | none => rfl
  | some cal =>
    simp only [bind_pure_events]
    by_cases h1 : pyEqJint cal 1 = true
    · simp only [h1, if_true]
      cases d.lookup "status" with
      | none => rfl
      | some st =>
        simp only [bind_pure_events]
        by_cases hs : pyTruthy st = true <;> simp [hs, emit_events]
    · simp only [eq_false h1, if_false]
      by_cases h0 : pyEqJint cal 0 = true
      · simp only [h0, if_true]
        cases d.lookup "status" with
        | none => rfl
        | some st =>
          simp only [bind_pure_events]
          by_cases hs : pyTruthy st = true
          · simp [hs, bind_emit_events, raise_events]
          · simp only [eq_false hs, if_false, bind_pure_events]
            cases d.lookup "stat-f" with
            | none => rfl
            | some sf =>
              simp only [bind_pure_events]
              by_cases hf : pyTruthy sf = true <;>
                simp [hf, emit_events, pure_events]
      · simp [eq_false h0, pure_events]

theorem mirrorCaliBody_events (d : Frame) :
    (mirrorCaliBody d).events = mirrorCaliBlock d := by
  unfold mirrorCaliBody mirrorCaliBlock getItem
  cases d.lookup "mirrorCali" with
  | none => rfl
  | some cal =>
    simp only [bind_pure_events]
    by_cases h0 : pyEqJint cal 0 = true
    · simp only [h0, if_true]
      cases d.lookup "status" with
      | none => rfl
      | some st =>
        simp only [bind_pure_events]
        by_cases hs : pyTruthy st = true <;> simp [hs, emit_events]
    · simp only [eq_false h0, if_false]
      by_cases h2 : pyEqJint cal 2 = true
      · simp only [h2, if_true]
        cases d.lookup "status" with
        | none => rfl
        | some st =>
          simp only [bind_pure_events]
          by_cases hs : pyTruthy st = true <;> simp [hs, emit_events]
      · simp only [eq_false h2, if_false]
        by_cases h1 : pyEqJint cal 1 = true
        · simp only [h1, if_true]
          cases d.lookup "status" with
          | none => rfl
          | some st =>
            simp only [bind_pure_events]
            by_cases hs : pyTruthy st = true <;> simp [hs, emit_events]
        · simp only [eq_false h1, if_false]
          by_cases h3 : pyEqJint cal 3 = true
          · simp only [h3, if_true]
            cases d.lookup "status" with
            | none => rfl
            | some st =>
              simp only [bind_pure_events]
              by_cases hs : pyTruthy st = true <;> simp [hs, emit_events]
          · simp [eq_false h3, pure_events]

theorem aircellBody_events (d : Frame) : (aircellBody d).events = aircellBlock d := by
  unfold aircellBody aircellBlock getItem
  cases d.lookup "aircell" with
  | none => rfl
  | some ac =>
    simp only [bind_pure_events]
    by_cases h0 : pyEqJint ac 0 = true
    · simp [h0, emit_events]
    · simp only [eq_false h0, if_false]
      by_cases h1 : pyEqJint ac 1 = true
      · simp [h1, emit_events]
      · simp only [eq_false h1, if_false]
        by_cases h2 : pyEqJint ac 2 = true
        · simp [h2, emit_events]
        · simp only [eq_false h2, if_false]
          by_cases h3 : pyEqJint ac 3 = true
          · simp [h3, emit_events]
          · simp [eq_false h3, pure_events]

theorem fanBody_events (d : Frame) : (fanBody d).events = fanBlock d := by
  unfold fanBody fanBlock getItem
  cases d.lookup "fan" with
  | none => rfl
  | some v =>
    simp only [bind_pure_events, pyIntM]
    cases pyIntE v with
    | none => rfl
    | some n =>
      simp only [bind_pure_events]
      by_cases h : n ≥ 0 <;> simp [h, emit_events]

-- Invariant machinery for the seat position tracker.

/-- Reachable values of `seat_position_current`: starting from the base 50
and stepping by plus or minus 10 inside the guards, the tracker only ever
holds 40, 50 or 60. -/
def seatPosReachable (p : Int) : Prop := p = 40 ∨ p = 50 ∨ p = 60

theorem voiceDispatch_pos_reachable (c : Option JValue) (p : Int)
    (h : seatPosReachable p) : seatPosReachable (voiceDispatch c p).2 := by
  unfold seatPosReachable at *
  unfold voiceDispatch VSS_SEAT_POSITION_MAX VSS_SEAT_POSITION_MIN
    VSS_SEAT_POSITION_MOVE_STEP
  dsimp only
  split_ifs <;> simp_all <;> omega

theorem runVoice_reachable (cmds : List (Option JValue)) (p : Int)
    (h : seatPosReachable p) : seatPosReachable (runVoice cmds p) := by
  induction cmds generalizing p with
  | nil => simpa [runVoice] using h
  | cons c q ih =>
    have h1 := voiceDispatch_pos_reachable c p h
    simpa [runVoice, List.foldl] using ih _ h1

/-- C1: starting from the initial tracker value (base = 50), after any
sequence of sequentially processed voice commands (in particular any mix of
seat-forward and seat-backward commands), the seat position tracker
`seat_position_current` is always within [40, 60] inclusive. -/
theorem C1_seat_tracker_bounded (cmds : List (Option JValue)) :
    VSS_SEAT_POSITION_MIN ≤ runVoice cmds VSS_SEAT_POSITION_BASE ∧
    runVoice cmds VSS_SEAT_POSITION_BASE ≤ VSS_SEAT_POSITION_MAX := by
  have h := runVoice_reachable cmds VSS_SEAT_POSITION_BASE
    (by unfold seatPosReachable VSS_SEAT_POSITION_BASE; omega)
  unfold seatPosReachable at h
  unfold VSS_SEAT_POSITION_MIN VSS_SEAT_POSITION_MAX
  omega

/-- C2 counterexample: on the voice-control topic the `json.loads(data)`
call (line 335) is not inside a `try`, so a malformed payload raises out of
the handler (modelled as `Except.error ()`): the dispatcher handler does
crash, contrary to the claim that malformed payloads on any inbound topic
are caught. -/
theorem C2_counterexample :
    on_voice_control_request_received BtMsg.malformed VSS_SEAT_POSITION_BASE =
      Except.error () := rfl

/-- C2 amended: a malformed JSON payload produces zero signal writes and
zero response publishes on either inbound path.  On the auxiliary queue the
decode failure is caught and subsequent valid commands still dispatch
correctly; on the voice-control topic the decode exception propagates
uncaught out of the handler (no events are produced, but the handler does
not complete normally). -/
theorem C2_malformed_payload (q : List BtMsg) (pos : Int) :
    on_got_msg_step BtMsg.malformed = [] ∧
    on_got_msg (BtMsg.malformed :: q) = on_got_msg q ∧
    on_voice_control_request_received BtMsg.malformed pos = Except.error () := by
  refine ⟨rfl, ?_, rfl⟩
  simp [on_got_msg, on_got_msg_step]

/-- C3 counterexample: the two lumbar-inflation blocks of the voice
dispatcher both guard on code 8 (`SDVOS_LUMBAR_SUPPORT_01_INFLATION` and
`SDVOS_LUMBAR_SUPPORT_02_INFLATION` are both defined as 8, lines 54-55), so
the decoded command `voice_cmd = 8` fires two rule blocks, contradicting
the claim that at most one rule matches and fires. -/
theorem C3_counterexample :
    voiceFiredCount (some (.num 8)) = 2 ∧
    ¬ voiceFiredCount (some (.num 8)) ≤ 1 := by decide

/-- C3 amended: every decoded voice command value that is not Python-equal
to 8 fires at most one rule block of the voice dispatcher; a value equal to
8 fires exactly two (the two lumbar-inflation blocks, whose codes are both
defined as 8). -/
theorem C3_rule_overlap (c : Option JValue) :
    (pyEqInt SDVOS_LUMBAR_SUPPORT_01_INFLATION c = true → voiceFiredCount c = 2) ∧
    (pyEqInt SDVOS_LUMBAR_SUPPORT_01_INFLATION c = false → voiceFiredCount c ≤ 1) := by
  constructor
  · intro h8
    rcases c with _ | v
    · simp [pyEqInt] at h8
    · rcases v with m | b | s
      · have hm : m = 8 := by
          simpa [pyEqInt, pyEqJint, SDVOS_LUMBAR_SUPPORT_01_INFLATION] using h8
        subst hm
        decide
      · rcases b with _ | _ <;>
          simp [pyEqInt, pyEqJint, SDVOS_LUMBAR_SUPPORT_01_INFLATION] at h8
      · simp [pyEqInt, pyEqJint] at h8
  · intro h8
    rcases c with _ | v
    · decide
    · rcases v with m | b | s
      · have hm : m ≠ 8 := by
          intro hm
          subst hm
          simp [pyEqInt, pyEqJint, SDVOS_LUMBAR_SUPPORT_01_INFLATION] at h8
        by_cases hb : 0 ≤ m ∧ m ≤ 9
        · obtain ⟨hb1, hb2⟩ := hb
          interval_cases m <;> first | (exact absurd rfl hm) | decide
        · have e0 : (m == (0 : Int)) = false := by simp; omega
          have e1 : (m == (1 : Int)) = false := by simp; omega
          have e2 : (m == (2 : Int)) = false := by simp; omega
          have e3 : (m == (3 : Int)) = false := by simp; omega
          have e4 : (m == (4 : Int)) = false := by simp; omega
          have e5 : (m == (5 : Int)) = false := by simp; omega
          have e6 : (m == (6 : Int)) = false := by simp; omega
          have e7 : (m == (7 : Int)) = false := by simp; omega
          have e8 : (m == (8 : Int)) = false := by simp; omega
          have e9 : (m == (9 : Int)) = false := by simp; omega
          simp [voiceFiredCount, pyEqInt, pyEqJint, SDVOS_SEAT_MOVE_FORWARD,
            SDVOS_SEAT_MOVE_BACKWARD, SDVOS_FAN_START, SDVOS_FAN_STOP,
            SDVOS_MIRRORREAR_PAN_LEFT, SDVOS_MIRRORREAR_PAN_RIGHT,
            SDVOS_MIRRORREAR_TITL_UP, SDVOS_MIRRORREAR_TITL_DOWN,
            SDVOS_LUMBAR_SUPPORT_01_INFLATION, SDVOS_LUMBAR_SUPPORT_02_INFLATION,
            SDVOS_LUMBAR_SUPPORT_DEFLATION, e0, e1, e2, e3, e4, e5, e6, e7, e8, e9]
      · rcases b with _ | _ <;> decide
      · simp [voiceFiredCount, pyEqInt, pyEqJint]

theorem C3_rule_overlap_witness :
    voiceFiredCount (some (.num 8)) = 2 ∧ voiceFiredCount (some (.num 3)) ≤ 1 :=
  ⟨(C3_rule_overlap (some (.num 8))).1 (by decide),
   (C3_rule_overlap (some (.num 3))).2 (by decide)⟩

/-- C4: a voice seat-forward command received when the tracker is at or
above the ceiling (60), and a voice seat-backward command received when the
tracker is at or below the floor (40), issue no seat-position signal write,
leave the tracker unchanged, and publish exactly one rejection response on
the voice-control response topic. -/
theorem C4_bound_rejection (p q : Int)
    (hp : p ≥ VSS_SEAT_POSITION_MAX) (hq : q ≤ VSS_SEAT_POSITION_MIN) :
    voiceDispatch (some (.num SDVOS_SEAT_MOVE_FORWARD)) p =
      ([send_mqtt_response "The Seat Position willbe bigger than max value(60)."], p) ∧
    voiceDispatch (some (.num SDVOS_SEAT_MOVE_BACKWARD)) q =
      ([send_mqtt_response "The Seat Position willbe litter than min value(40)."], q) := by
  constructor <;>
    simp [voiceDispatch, pyEqInt, pyEqJint, hp, hq, SDVOS_SEAT_MOVE_FORWARD,
      SDVOS_SEAT_MOVE_BACKWARD, SDVOS_FAN_START, SDVOS_FAN_STOP,
      SDVOS_MIRRORREAR_PAN_LEFT, SDVOS_MIRRORREAR_PAN_RIGHT,
      SDVOS_MIRRORREAR_TITL_UP, SDVOS_MIRRORREAR_TITL_DOWN,
      SDVOS_LUMBAR_SUPPORT_01_INFLATION, SDVOS_LUMBAR_SUPPORT_02_INFLATION,
      SDVOS_LUMBAR_SUPPORT_DEFLATION]

theorem C4_bound_rejection_witness :
    voiceDispatch (some (.num SDVOS_SEAT_MOVE_FORWARD)) 60 =
      ([send_mqtt_response "The Seat Position willbe bigger than max value(60)."], 60) ∧
    voiceDispatch (some (.num SDVOS_SEAT_MOVE_BACKWARD)) 40 =
      ([send_mqtt_response "The Seat Position willbe litter than min value(40)."], 40) :=
  C4_bound_rejection 60 40 (by decide) (by decide)

/-- C5: for every speed-query request, the handler publishes exactly one
response on `sampleapp/getSpeed/response`, whose payload carries status 0
and whose message equals "Current Speed = " followed by the value returned
by the actuation port's speed get call. -/
theorem C5_speed_query_response (v : Int) :
    (on_get_speed_request_received v).length = 1 ∧
    on_get_speed_request_received v =
      [Event.publish ⟨GET_SPEED_RESPONSE_TOPIC,
        .result 0 ("Current Speed = " ++ toString v)⟩] :=
  ⟨rfl, rfl⟩

/-- C6: for every voice mirror-pan-left command (code 4), whatever the
current tracker value, the rule performs exactly two writes to the
left-mirror pan signal in order — the pan-left target angle 120, then after
the fixed 2-second sleep the stop angle 118 — and no other events. -/
theorem C6_mirror_pan_left (p : Int) :
    voiceDispatch (some (.num SDVOS_MIRRORREAR_PAN_LEFT)) p =
      ([Event.write .BodyMirrorsLeftPan VSS_MIRROR_PAN_LEFT, Event.sleep 2,
        Event.write .BodyMirrorsLeftPan VSS_MIRROR_MOVE_STOP], p) := by
  simp [voiceDispatch, pyEqInt, pyEqJint, SDVOS_SEAT_MOVE_FORWARD,
    SDVOS_SEAT_MOVE_BACKWARD, SDVOS_FAN_START, SDVOS_FAN_STOP,
    SDVOS_MIRRORREAR_PAN_LEFT, SDVOS_MIRRORREAR_PAN_RIGHT,
    SDVOS_MIRRORREAR_TITL_UP, SDVOS_MIRRORREAR_TITL_DOWN,
    SDVOS_LUMBAR_SUPPORT_01_INFLATION, SDVOS_LUMBAR_SUPPORT_02_INFLATION,
    SDVOS_LUMBAR_SUPPORT_DEFLATION]

/-- C7: for every successfully decoded auxiliary frame, the event trace of
`on_got_msg` is the concatenation of the five category blocks' isolated
traces followed by the echo publish: a decoding or type failure inside one
category block (caught by its own `try/except`) never prevents the
remaining category blocks from being evaluated for the same frame. -/
theorem C7_category_isolation (d : Frame) :
    (btDispatch d).events =
      seatPosBlock d ++ seatCaliBlock d ++ mirrorCaliBlock d ++ aircellBlock d ++
        fanBlock d ++ [Event.publish ⟨"sampleapp/bt_cmd/reponse", .btCmd d⟩] := by
  unfold btDispatch
  simp only [bind_tryPass_events, seatPosBody_events, seatCaliBody_events,
    mirrorCaliBody_events, aircellBody_events, fanBody_events, emit_events,
    List.append_assoc]

/-- C8: for every decoded auxiliary frame whose `seatPos` field coerces to
an integer n, the seat-position passthrough issues the single write of n
exactly when 1 ≤ n ≤ 100, and no write otherwise. -/
theorem C8_seat_passthrough (d : Frame) (v : JValue) (n : Int)
    (hv : d.lookup "seatPos" = some v) (hn : pyIntE v = some n) :
    (1 ≤ n ∧ n ≤ 100 →
      seatPosBlock d = [Event.write .CabinSeatRow1Pos1Position n]) ∧
    (¬(1 ≤ n ∧ n ≤ 100) → seatPosBlock d = []) := by
  unfold seatPosBlock
  simp only [hv, hn]
  constructor
  · intro h
    have hg : n > 0 ∧ n ≤ 100 := by omega
    simp [hg]
  · intro h
    have hg : ¬(n > 0 ∧ n ≤ 100) := by omega
    simp [hg]

theorem C8_seat_passthrough_witness :
    seatPosBlock [("seatPos", JValue.num 42)] =
      [Event.write .CabinSeatRow1Pos1Position 42] :=
  (C8_seat_passthrough [("seatPos", JValue.num 42)] (JValue.num 42) 42
    (by decide) (by decide)).1 (by norm_num)

/-- C9: on the auxiliary frame containing only the key `fan` with value 30,
exactly one fan-speed write of 30 occurs; no seat, mirror or lumbar write
occurs for that frame (the trace holds nothing but the fan write and the
unconditional echo publish). -/
theorem C9_fan_only_frame :
    (btDispatch [("fan", JValue.num 30)]).events =
      [Event.write .CabinHVACStationRow1LeftFanSpeed 30,
       Event.publish ⟨"sampleapp/bt_cmd/reponse",
         .btCmd [("fan", JValue.num 30)]⟩] := by decide

/-- C10: on the auxiliary frame with exactly `seatCali = 0` and
`status = false` (the stop-forward seat-calibration command), the
seat-calibration category issues no signal write at all (its guard reads
the non-existent key `'stat-f'`, raising a caught `KeyError`), the
remaining category blocks are still evaluated, and the single echo publish
on the bt_cmd response topic still occurs. -/
theorem C10_stop_forward_calibration :
    seatCaliBlock [("seatCali", JValue.num 0), ("status", JValue.bool false)] = [] ∧
    (btDispatch [("seatCali", JValue.num 0), ("status", JValue.bool false)]).events =
      [Event.publish ⟨"sampleapp/bt_cmd/reponse",
        .btCmd [("seatCali", JValue.num 0), ("status", JValue.bool false)]⟩] := by
  decide
